import Mathlib

/-!
Shallow embedding of the WhatsApp connection/session core of the SocialSync
backend: phone-number normalization and contact resolution
(backend/whatsapp/utils/utils.ts, services/service.ts), the
reconnection controller with its pending-request queue
(service.ts, attemptReconnect / handleRequest), the client event handlers
(service.ts, setupClientEventHandlers), the session persistence store
(services/sessionManager.ts: saveSession / invalidateSession /
restoreLatestBackup), and the durable scheduled-message store
(service.ts, scheduleSendJob / schedulePersistentMessage).

JavaScript strings are sequences of code units; the string operations used
by the source (trim, toLowerCase, startsWith, length, slice, template
concatenation) are embedded as executable functions on the character data
of a Lean String, which for the ASCII data handled here coincides with the
JS semantics. Time is epoch milliseconds as a natural number. Disk and
network effects are made explicit: file stores are values, write outcomes
and attempt outcomes are injected parameters.
-/

/-! ## JS string primitives used by the source -/

/-- JS String.prototype.trim: strip leading and trailing whitespace. -/
def jsTrim (s : String) : String :=
  String.mk (((s.data.dropWhile Char.isWhitespace).reverse.dropWhile Char.isWhitespace).reverse)

/-- JS String.prototype.startsWith on code units. -/
def jsStartsWith (s pre : String) : Bool := List.isPrefixOf pre.data s.data

/-- JS String.prototype.toLowerCase on code units. -/
def jsToLower (s : String) : String := String.mk (s.data.map Char.toLower)

/-- JS String.prototype.slice(1): drop the first code unit. -/
def jsSliceOne (s : String) : String := String.mk (s.data.drop 1)

/-! ## utils.ts: normalizeIndianNumber

Source (backend/whatsapp/utils/utils.ts, lines 4-10):
trim the input; length 10 returns "91" prepended; length 12 starting with
"91" returns the input; length 13 starting with "+91" returns slice(1);
anything else returns null. -/

def normalizeIndianNumber (input : String) : Option String :=
  if (jsTrim input).length = 10 then some ("91" ++ jsTrim input)
  else if (jsTrim input).length = 12 ∧ jsStartsWith (jsTrim input) "91" = true then
    some (jsTrim input)
  else if (jsTrim input).length = 13 ∧ jsStartsWith (jsTrim input) "+91" = true then
    some (jsSliceOne (jsTrim input))
  else none

/-- Modelled from the spec words of claim C7 only (not from the source): the
claimed local phone-number pattern, with digit checks as the claim states
them ("10 digits; 12 digits with country prefix 91; 13 characters with a
leading + country prefix"). Used to compare the claimed pattern against the
source function normalizeIndianNumber. -/
def specPhonePattern (s : String) : Bool :=
  (s.length == 10 && s.data.all Char.isDigit)
  || (s.length == 12 && s.data.all Char.isDigit && jsStartsWith s "91")
  || (s.length == 13 && jsStartsWith s "+91")

/-! ## service.ts: contact cache and resolveContactJid (lines 26-143) -/

structure ContactCache where
  contacts : List (String × String)
  timestamp : Nat
deriving Repr, DecidableEq

/-- CONTACT_CACHE_DURATION = 5 * 60 * 1000 (service.ts line 32). -/
def CONTACT_CACHE_DURATION : Nat := 5 * 60 * 1000

/-- JS object property read on the name-to-number map. -/
def lookupContact (contacts : List (String × String)) (key : String) : Option String :=
  match contacts.find? (fun p => p.1 == key) with
  | some p => some p.2
  | none => none

/-- The cache consult of resolveContactJid (service.ts lines 46-55): a hit
requires a cache object, age below CONTACT_CACHE_DURATION, and a truthy
(non-empty) stored number for the lowercased key. -/
def cacheLookup (cache : Option ContactCache) (now : Nat) (lowerName : String) : Option String :=
  match cache with
  | none => none
  | some c =>
    if now - c.timestamp < CONTACT_CACHE_DURATION then
      match lookupContact c.contacts lowerName with
      | some num => if num = "" then none else some num
      | none => none
    else none

/-- Where resolveContactJid ends up before any client interaction:
invalid input returns null immediately; a fresh cache hit returns the
cached jid; otherwise a phone-pattern match returns the normalized jid;
otherwise the function proceeds to the external contact fetch. -/
inductive ResolveOutcome
  | invalidInput
  | fromCache (jid : String)
  | fromPhone (jid : String)
  | externalLookup (lowerName : String)
deriving Repr, DecidableEq

/-- resolveContactJid (service.ts lines 35-63), up to the point where the
client is consulted: guard for empty input, then the cache consult, then
normalizeIndianNumber, then fall through to the external lookup. -/
def resolveContactJid (cache : Option ContactCache) (now : Nat) (nameOrNumber : String) :
    ResolveOutcome :=
  if jsTrim nameOrNumber = "" then ResolveOutcome.invalidInput
  else
    match cacheLookup cache now (jsToLower nameOrNumber) with
    | some num => ResolveOutcome.fromCache (num ++ "@c.us")
    | none =>
      match normalizeIndianNumber nameOrNumber with
      | some phone => ResolveOutcome.fromPhone (phone ++ "@c.us")
      | none => ResolveOutcome.externalLookup (jsToLower nameOrNumber)

/-! ## service.ts: reconnection constants and backoff (lines 171-175, 726-739) -/

def MAX_RECONNECT_ATTEMPTS : Nat := 5
def RECONNECT_BASE_DELAY : Nat := 5000
def RECONNECT_MAX_DELAY : Nat := 30000
def RECONNECT_JITTER : Nat := 1000

/-- The pre-jitter part of the reconnection delay for a 1-based attempt
number: min(RECONNECT_BASE_DELAY * 2^(attempt-1), RECONNECT_MAX_DELAY). -/
def reconnectBaseBackoff (attempt : Nat) : ℚ :=
  min ((RECONNECT_BASE_DELAY : ℚ) * 2 ^ (attempt - 1)) (RECONNECT_MAX_DELAY : ℚ)

/-- The full delay of service.ts lines 728-731; jitter stands for
Math.random() * RECONNECT_JITTER, a rational in [0, RECONNECT_JITTER). -/
def reconnectDelay (attempt : Nat) (jitter : ℚ) : ℚ :=
  reconnectBaseBackoff attempt + jitter

/-! ## service.ts: pending-request queue and attemptReconnect (lines 180-806) -/

/-- A queued operation: what running operation() would produce. A resolved
or rejected promise is the only observable result of the stored
resolve/reject callbacks. -/
structure PendingRequest (α : Type) where
  opResult : Except String α
deriving Repr

/-- How a queued caller promise is settled. -/
inductive Settlement (α : Type)
  | resolved (a : α)
  | rejected (e : String)
deriving Repr

/-- The drain body (service.ts lines 781-788): run the operation, resolve
on success, reject on error. -/
def settle {α : Type} (r : PendingRequest α) : Settlement α :=
  match r.opResult with
  | Except.ok a => Settlement.resolved a
  | Except.error e => Settlement.rejected e

/-- Result of handleRequest (service.ts lines 682-710): immediate rejection
during cleanup, queueing during reconnection, or immediate execution. -/
inductive HandleRequestOutcome (α : Type)
  | rejectedCleanup
  | queued (newPending : List (PendingRequest α))
  | executed (result : Except String α)
deriving Repr

def handleRequest {α : Type} (isCleaningUp isReconnecting : Bool)
    (pending : List (PendingRequest α)) (op : Except String α) : HandleRequestOutcome α :=
  if isCleaningUp then HandleRequestOutcome.rejectedCleanup
  else if isReconnecting then HandleRequestOutcome.queued (pending ++ [⟨op⟩])
  else HandleRequestOutcome.executed op

/-- Net outcome of one outer reconnection attempt: either the fresh client
passes validation (cleanup, re-creation and the inner validation loop all
succeed), or the attempt fails for any reason. Indexed from 0, so index i
is attempt i+1 in the 1-based counting of the source. -/
inductive AttemptOutcome
  | validated
  | failed
deriving Repr, DecidableEq

/-- The while loop of attemptReconnect (service.ts lines 726-802), with
fuel = MAX_RECONNECT_ATTEMPTS - attempts made so far. Returns the pending
queue left behind, the settlements applied in order, and whether the
function threw (exhaustion rethrows the last failure). On a validated
attempt the queue is snapshotted, emptied, and drained front to back. -/
def reconnectLoop {α : Type} (outcome : Nat → AttemptOutcome)
    (pending : List (PendingRequest α)) :
    Nat → Nat → List (PendingRequest α) × List (Settlement α) × Bool
  | _, 0 => (pending, [], true)
  | idx, fuel+1 =>
    match outcome idx with
    | AttemptOutcome.validated => ([], pending.map settle, false)
    | AttemptOutcome.failed => reconnectLoop outcome pending (idx+1) fuel

structure ReconnectResult (α : Type) where
  pendingAfter : List (PendingRequest α)
  settlements : List (Settlement α)
  threw : Bool
  isReconnectingAfter : Bool
deriving Repr

/-- attemptReconnect (service.ts lines 713-806): single-flight no-op when a
recovery is already running, otherwise the bounded attempt loop; the
finally block always clears the isReconnecting flag. -/
def attemptReconnect {α : Type} (isReconnecting : Bool) (outcome : Nat → AttemptOutcome)
    (pending : List (PendingRequest α)) : ReconnectResult α :=
  if isReconnecting then ⟨pending, [], false, true⟩
  else
    let r := reconnectLoop outcome pending 0 MAX_RECONNECT_ATTEMPTS
    ⟨r.1, r.2.1, r.2.2, false⟩

/-! ## service.ts: client event handlers (setupClientEventHandlers, lines 286-413) -/

/-- The module-level mutable state touched by the event handlers. -/
structure ServiceState where
  isClientReady : Bool
  reconnectAttempts : Nat
  lastQrDataUrl : Option String
  contactCache : Option ContactCache
  lastSessionState : Option (Bool × Nat)
deriving Repr, DecidableEq

/-- clearContactCache (service.ts lines 146-149). -/
def clearContactCache (s : ServiceState) : ServiceState :=
  { s with contactCache := none }

/-- The ready handler (service.ts lines 344-367): sets the ready flag,
resets the reconnect-attempt counter, drops the stored QR data URL and
records an authenticated session state. It does not touch the contact
cache. -/
def onReadyEvent (now : Nat) (s : ServiceState) : ServiceState :=
  { s with isClientReady := true, reconnectAttempts := 0, lastQrDataUrl := none,
           lastSessionState := some (true, now) }

/-- The session handler (service.ts lines 287-295): records the session
state and clears the contact cache. -/
def onSessionEvent (now : Nat) (s : ServiceState) : ServiceState :=
  clearContactCache { s with lastSessionState := some (true, now) }

/-- The authenticated handler (service.ts lines 297-304). -/
def onAuthenticatedEvent (now : Nat) (s : ServiceState) : ServiceState :=
  clearContactCache { s with lastSessionState := some (true, now) }

/-- The auth_failure handler (service.ts lines 306-323); the session-store
side effect of invalidateSession on LOGOUT is modelled on SessionFS. -/
def onAuthFailureEvent (msg : String) (s : ServiceState) : ServiceState :=
  let s1 := clearContactCache { s with isClientReady := false, reconnectAttempts := 0 }
  if msg = "LOGOUT" then { s1 with lastSessionState := none } else s1

/-- The disconnected handler (service.ts lines 325-342). -/
def onDisconnectedEvent (reason : String) (s : ServiceState) : ServiceState :=
  let s1 := clearContactCache { s with isClientReady := false }
  if reason = "LOGOUT" then { s1 with lastSessionState := none } else s1

/-! ## sessionManager.ts: session file and backup store -/

/-- A file name as its JS code units. -/
abbrev FileName := List Char

/-- The live session file plus the backup directory. -/
structure SessionFS where
  sessionFile : Option String
  backups : List (FileName × String)
deriving Repr, DecidableEq

/-- The backup name written by saveSession (sessionManager.ts line 226):
session-Date.now().json. -/
def sessionBackupName (ts : Nat) : FileName :=
  "session-".data ++ (Nat.repr ts).data ++ ".json".data

/-- The backup name written by invalidateSession (sessionManager.ts
line 269): invalidated-session-Date.now().json. -/
def invalidatedBackupName (ts : Nat) : FileName :=
  "invalidated-session-".data ++ (Nat.repr ts).data ++ ".json".data

/-- saveSession (sessionManager.ts lines 220-240): when a live session file
exists, copy it under a timestamped backup name, then overwrite the live
file. No pruning happens on this path; the retention logic exists only in
the createBackup helper, which no caller invokes. -/
def saveSession (ts : Nat) (session : String) (fs : SessionFS) : SessionFS :=
  match fs.sessionFile with
  | some content =>
    { sessionFile := some session, backups := fs.backups ++ [(sessionBackupName ts, content)] }
  | none => { sessionFile := some session, backups := fs.backups }

/-- A sequence of saveSession calls, each with its own timestamp and
session payload. -/
def saveSessionSeq : List (Nat × String) → SessionFS → SessionFS
  | [], fs => fs
  | (ts, s) :: rest, fs => saveSessionSeq rest (saveSession ts s fs)

/-- invalidateSession (sessionManager.ts lines 263-285): back the live file
up under the invalidated- prefix and delete it; no-op without a live
file. -/
def invalidateSession (ts : Nat) (fs : SessionFS) : SessionFS :=
  match fs.sessionFile with
  | some content =>
    { sessionFile := none, backups := fs.backups ++ [(invalidatedBackupName ts, content)] }
  | none => fs

def fileStartsWith (pre f : FileName) : Bool := List.isPrefixOf pre f

def fileEndsWith (post f : FileName) : Bool := List.isPrefixOf post.reverse f.reverse

/-- The restoreLatestBackup candidate filter (sessionManager.ts line 294):
name starts with session- and ends with .json. -/
def fileMatches (f : FileName) : Bool :=
  fileStartsWith "session-".data f && fileEndsWith ".json".data f

/-- JS default lexicographic comparison on code units, as used by
Array.prototype.sort on the backup names. -/
def nameLe : FileName → FileName → Bool
  | [], _ => true
  | _ :: _, [] => false
  | a :: as, b :: bs =>
    if a.val < b.val then true
    else if b.val < a.val then false
    else nameLe as bs

def insertByNameDesc (x : FileName × String) :
    List (FileName × String) → List (FileName × String)
  | [] => [x]
  | y :: ys => if nameLe x.1 y.1 then y :: insertByNameDesc x ys else x :: y :: ys

/-- sort() then reverse(): the candidates in descending name order. -/
def sortByNameDesc (l : List (FileName × String)) : List (FileName × String) :=
  l.foldr insertByNameDesc []

/-- restoreLatestBackup (sessionManager.ts lines 287-324): filter the
backup directory to session-*.json names, take the greatest name, copy its
content over the live session file; false and no change when no candidate
exists. -/
def restoreLatestBackup (fs : SessionFS) : Bool × SessionFS :=
  match sortByNameDesc (fs.backups.filter (fun p => fileMatches p.1)) with
  | [] => (false, fs)
  | latest :: _ => (true, { fs with sessionFile := some latest.2 })

/-! ## service.ts: durable scheduled messages (lines 874-958) -/

/-- The persisted entry shape of scheduled-messages.json; date is the
sendAt instant in epoch milliseconds. -/
structure ScheduledMessage where
  «to» : String
  message : String
  date : Nat
  id : String
deriving Repr, DecidableEq

/-- What scheduleSendJob does with one entry: arm a timer for the positive
delay, or return without arming anything. -/
inductive ScheduleJobEffect
  | skipped
  | timerArmed (delay : Nat)
deriving Repr, DecidableEq

/-- scheduleSendJob (service.ts lines 903-921): delay = sendAt - now; a
non-positive delay returns before any timer is armed, so neither the send
nor the finally-block removal ever runs for such an entry. -/
def scheduleSendJob (now : Nat) (msg : ScheduledMessage) : ScheduleJobEffect :=
  if (msg.date : Int) - (now : Int) ≤ 0 then ScheduleJobEffect.skipped
  else ScheduleJobEffect.timerArmed ((msg.date : Int) - (now : Int)).toNat

/-- restoreScheduledMessagesOnStartup (service.ts lines 924-929): load the
persisted list and run scheduleSendJob on each entry. Returns the per-entry
effects and the durable list, which the startup pass itself never
rewrites. -/
def restoreScheduledMessagesOnStartup (now : Nat) (store : List ScheduledMessage) :
    List (ScheduledMessage × ScheduleJobEffect) × List ScheduledMessage :=
  (store.map (fun m => (m, scheduleSendJob now m)), store)

/-- The finally block of an armed timer (service.ts lines 914-918): remove
the entry by id from the durable list, whether the send succeeded or not. -/
def timerFireRemove (store : List ScheduledMessage) (msgId : String) : List ScheduledMessage :=
  store.filter (fun m => m.id != msgId)

/-- saveScheduledMessages (service.ts lines 895-901): the file write is
wrapped in try/catch; an error is logged and swallowed, never rethrown.
The injected writeResult is the outcome of fs.promises.writeFile. -/
def saveScheduledMessages (writeResult : Except String Unit) : Except String Unit :=
  match writeResult with
  | Except.ok _ => Except.ok ()
  | Except.error _ => Except.ok ()

/-- The value schedulePersistentMessage returns to its caller. -/
structure ScheduleResult where
  success : Bool
  id : String
deriving Repr, DecidableEq

/-- schedulePersistentMessage (service.ts lines 932-958), for a Date-typed
scheduled argument: validate the inputs, require a strictly future instant,
build the id, append to the durable list, persist through
saveScheduledMessages, arm the timer, and return success with the id.
rand stands for the random id suffix. The Except.error branch after the
save mirrors that a rethrown write failure would propagate. -/
def schedulePersistentMessage (now : Nat) (writeResult : Except String Unit)
    (store : List ScheduledMessage) («to» message : String) (scheduled : Nat) (rand : String) :
    Except String (ScheduleResult × List ScheduledMessage × ScheduleJobEffect) :=
  if jsTrim «to» = "" then Except.error "Recipient contact must be a non-empty string."
  else if jsTrim message = "" then Except.error "Message content must be a non-empty string."
  else if scheduled ≤ now then
    Except.error "Scheduled time must be in the future. Please provide a future date/time."
  else
    match saveScheduledMessages writeResult with
    | Except.error e => Except.error e
    | Except.ok _ =>
      Except.ok (⟨true, «to» ++ "_" ++ toString scheduled ++ "_" ++ rand⟩,
        store ++ [⟨«to», message, scheduled, «to» ++ "_" ++ toString scheduled ++ "_" ++ rand⟩],
        scheduleSendJob now ⟨«to», message, scheduled, «to» ++ "_" ++ toString scheduled ++ "_" ++ rand⟩)

/-! ## Helper lemmas -/

theorem reconnectLoop_validated {α : Type} (outcome : Nat → AttemptOutcome)
    (pending : List (PendingRequest α)) :
    ∀ fuel idx, (∃ i, idx ≤ i ∧ i < idx + fuel ∧ outcome i = AttemptOutcome.validated) →
      reconnectLoop outcome pending idx fuel = ([], pending.map settle, false) := by
  intro fuel
  induction fuel with
  | zero =>
    intro idx ⟨i, h1, h2, _⟩
    omega
  | succ n ih =>
    intro idx ⟨i, h1, h2, h3⟩
    cases h : outcome idx with
    | validated => simp [reconnectLoop, h]
    | failed =>
      have hne : i ≠ idx := by
        intro e
        rw [e, h] at h3
        exact absurd h3 (by simp)
      simp only [reconnectLoop, h]
      exact ih (idx+1) ⟨i, by omega, by omega, h3⟩

theorem reconnectLoop_all_failed {α : Type} (outcome : Nat → AttemptOutcome)
    (pending : List (PendingRequest α)) :
    ∀ fuel idx, (∀ i, idx ≤ i → i < idx + fuel → outcome i = AttemptOutcome.failed) →
      reconnectLoop outcome pending idx fuel = (pending, [], true) := by
  intro fuel
  induction fuel with
  | zero => intro idx _; rfl
  | succ n ih =>
    intro idx hall
    have h : outcome idx = AttemptOutcome.failed := hall idx (by omega) (by omega)
    simp only [reconnectLoop, h]
    exact ih (idx+1) (fun i hi1 hi2 => hall i (by omega) (by omega))

/-! ## Claim theorems -/

/-- C1 counterexample: a persisted entry whose sendAt (5) already elapsed at
load time (now = 10) does not fire: scheduleSendJob returns without arming a
timer, and the startup pass leaves the durable store unchanged, so the entry
is neither sent nor removed — contrary to the claim that it fires
immediately and is removed exactly once. -/
theorem scheduleSendJob_past_entry_counterexample :
    scheduleSendJob 10 ⟨"alice", "hi", 5, "id1"⟩ = ScheduleJobEffect.skipped
    ∧ (restoreScheduledMessagesOnStartup 10 [⟨"alice", "hi", 5, "id1"⟩]).2
        = [⟨"alice", "hi", 5, "id1"⟩]
    ∧ (restoreScheduledMessagesOnStartup 10 [⟨"alice", "hi", 5, "id1"⟩]).1
        = [(⟨"alice", "hi", 5, "id1"⟩, ScheduleJobEffect.skipped)] :=
  ⟨rfl, rfl, rfl⟩

/-- C1 (amended): on process start every persisted entry is loaded, but a
timer is armed only for entries with sendAt strictly in the future; an entry
with sendAt at or before now is skipped — no timer, no send, and it stays in
the durable store. -/
theorem scheduleSendJob_skips_past_entries (now : Nat) (store : List ScheduledMessage)
    (m : ScheduledMessage) (hm : m ∈ store) :
    (m.date ≤ now → scheduleSendJob now m = ScheduleJobEffect.skipped)
    ∧ (now < m.date → scheduleSendJob now m = ScheduleJobEffect.timerArmed (m.date - now))
    ∧ (restoreScheduledMessagesOnStartup now store).2 = store
    ∧ (m, scheduleSendJob now m) ∈ (restoreScheduledMessagesOnStartup now store).1 := by
  refine ⟨?_, ?_, rfl, List.mem_map_of_mem _ hm⟩
  · intro h
    unfold scheduleSendJob
    rw [if_pos (by omega)]
  · intro h
    unfold scheduleSendJob
    rw [if_neg (by omega)]
    congr 1
    omega

/-- C1 witness: the amended theorem applied to one past-due entry. -/
theorem scheduleSendJob_skips_past_entries_witness :
    ((⟨"bob", "yo", 5, "i1"⟩ : ScheduledMessage).date ≤ 10 →
        scheduleSendJob 10 ⟨"bob", "yo", 5, "i1"⟩ = ScheduleJobEffect.skipped)
    ∧ (10 < (⟨"bob", "yo", 5, "i1"⟩ : ScheduledMessage).date →
        scheduleSendJob 10 ⟨"bob", "yo", 5, "i1"⟩
          = ScheduleJobEffect.timerArmed ((⟨"bob", "yo", 5, "i1"⟩ : ScheduledMessage).date - 10))
    ∧ (restoreScheduledMessagesOnStartup 10 [⟨"bob", "yo", 5, "i1"⟩]).2 = [⟨"bob", "yo", 5, "i1"⟩]
    ∧ ((⟨"bob", "yo", 5, "i1"⟩ : ScheduledMessage), scheduleSendJob 10 ⟨"bob", "yo", 5, "i1"⟩)
        ∈ (restoreScheduledMessagesOnStartup 10 [⟨"bob", "yo", 5, "i1"⟩]).1 :=
  scheduleSendJob_skips_past_entries 10 [⟨"bob", "yo", 5, "i1"⟩] ⟨"bob", "yo", 5, "i1"⟩ (by simp)

/-- C2: starting from an existing session file and an empty backup
directory, 7 successive saveSession calls leave 7 backup files, not 5:
saveSession never prunes (the retention logic lives only in the dead
createBackup helper), so the backup count is not capped at MAX_BACKUPS. -/
theorem saveSession_seven_saves_seven_backups :
    (saveSessionSeq [(1, "a"), (2, "b"), (3, "c"), (4, "d"), (5, "e"), (6, "f"), (7, "g")]
        ⟨some "s0", []⟩).backups.length = 7
    ∧ ¬ ((saveSessionSeq [(1, "a"), (2, "b"), (3, "c"), (4, "d"), (5, "e"), (6, "f"), (7, "g")]
        ⟨some "s0", []⟩).backups.length = 5) :=
  ⟨rfl, by decide⟩

/-- C3 counterexample: with one operation queued and every attempt failing,
exhausting all MAX_RECONNECT_ATTEMPTS settles nothing: attemptReconnect
throws with the queue left intact, so the queued operation is never rejected
with any error — contrary to the claim that every pending operation is
rejected on exhaustion. -/
theorem reconnect_exhaustion_counterexample :
    attemptReconnect false (fun _ => AttemptOutcome.failed)
        [(⟨Except.ok 42⟩ : PendingRequest Nat)]
      = ⟨[⟨Except.ok 42⟩], [], true, false⟩
    ∧ (attemptReconnect false (fun _ => AttemptOutcome.failed)
        [(⟨Except.ok 42⟩ : PendingRequest Nat)]).settlements = [] :=
  ⟨rfl, rfl⟩

/-- C3 (amended): when all MAX_RECONNECT_ATTEMPTS attempts fail,
attemptReconnect throws and the finally block clears the recovery flag, but
the pending queue is left as it was and no queued operation is settled —
queued operations are not rejected and remain unresolved. -/
theorem reconnect_exhaustion_no_rejection {α : Type} (outcome : Nat → AttemptOutcome)
    (pending : List (PendingRequest α))
    (hfail : ∀ i, i < MAX_RECONNECT_ATTEMPTS → outcome i = AttemptOutcome.failed) :
    attemptReconnect false outcome pending = ⟨pending, [], true, false⟩ := by
  have hloop := reconnectLoop_all_failed outcome pending MAX_RECONNECT_ATTEMPTS 0
    (fun i h1 h2 => hfail i (by omega))
  simp [attemptReconnect, hloop]

/-- C3 witness: the amended theorem at a concrete always-failing run. -/
theorem reconnect_exhaustion_no_rejection_witness :
    attemptReconnect false (fun _ => AttemptOutcome.failed)
        [(⟨Except.ok 7⟩ : PendingRequest Nat)]
      = ⟨[⟨Except.ok 7⟩], [], true, false⟩ :=
  @reconnect_exhaustion_no_rejection Nat (fun _ => AttemptOutcome.failed)
    [⟨Except.ok 7⟩] (fun _ _ => rfl)

/-- C4 counterexample: resolveContactJid consults the cache before the
phone-number pattern. For the identifier 9876543210 — which matches the
10-digit pattern and normalizes to 919876543210 — a fresh cache entry
mapping that very key to a different number wins: the result comes from the
cache, not from the pattern, contrary to the claim that pattern matches
bypass the cache. -/
theorem resolveContactJid_cache_first_counterexample :
    resolveContactJid (some ⟨[("9876543210", "918888888888")], 0⟩) 0 "9876543210"
      = ResolveOutcome.fromCache "918888888888@c.us"
    ∧ resolveContactJid (some ⟨[("9876543210", "918888888888")], 0⟩) 0 "9876543210"
      ≠ ResolveOutcome.fromPhone "919876543210@c.us"
    ∧ normalizeIndianNumber "9876543210" = some "919876543210" :=
  ⟨rfl, by decide, rfl⟩

/-- C4 (amended): resolution consults the fresh cache first; a cache hit for
the lowercased identifier is returned directly. Only on a cache miss
(cache absent, stale, or without the key) is the phone pattern tested, and a
match then yields the normalized canonical address with no external lookup;
identifiers matching neither fall through to the external fetch. -/
theorem resolveContactJid_cache_then_phone (cache : Option ContactCache) (now : Nat)
    (input : String) (hvalid : ¬ (jsTrim input = "")) :
    (∀ num, cacheLookup cache now (jsToLower input) = some num →
        resolveContactJid cache now input = ResolveOutcome.fromCache (num ++ "@c.us"))
    ∧ (∀ phone, cacheLookup cache now (jsToLower input) = none →
        normalizeIndianNumber input = some phone →
        resolveContactJid cache now input = ResolveOutcome.fromPhone (phone ++ "@c.us"))
    ∧ (cacheLookup cache now (jsToLower input) = none →
        normalizeIndianNumber input = none →
        resolveContactJid cache now input = ResolveOutcome.externalLookup (jsToLower input)) := by
  refine ⟨?_, ?_, ?_⟩ <;> intros <;> simp [resolveContactJid, hvalid, *]

/-- C4 witness: the amended theorem at a concrete fresh cache. -/
theorem resolveContactJid_cache_then_phone_witness :
    (∀ num, cacheLookup (some ⟨[("alice", "919999999999")], 0⟩) 60000 (jsToLower "Alice")
          = some num →
        resolveContactJid (some ⟨[("alice", "919999999999")], 0⟩) 60000 "Alice"
          = ResolveOutcome.fromCache (num ++ "@c.us"))
    ∧ (∀ phone, cacheLookup (some ⟨[("alice", "919999999999")], 0⟩) 60000 (jsToLower "Alice")
          = none →
        normalizeIndianNumber "Alice" = some phone →
        resolveContactJid (some ⟨[("alice", "919999999999")], 0⟩) 60000 "Alice"
          = ResolveOutcome.fromPhone (phone ++ "@c.us"))
    ∧ (cacheLookup (some ⟨[("alice", "919999999999")], 0⟩) 60000 (jsToLower "Alice") = none →
        normalizeIndianNumber "Alice" = none →
        resolveContactJid (some ⟨[("alice", "919999999999")], 0⟩) 60000 "Alice"
          = ResolveOutcome.externalLookup (jsToLower "Alice")) :=
  resolveContactJid_cache_then_phone (some ⟨[("alice", "919999999999")], 0⟩) 60000 "Alice"
    (by decide)

/-- C5: operations enqueued through handleRequest while the recovery flag is
set are appended at the tail, and once an attempt validates, the queue is
drained strictly FIFO: for A, B, C enqueued in that order, the drained
settlements are exactly the settlements of A, B, C in that order, the queue
is emptied, and attemptReconnect returns without throwing, with the recovery
flag cleared. -/
theorem pending_queue_fifo_drain {α : Type} (A B C : Except String α)
    (outcome : Nat → AttemptOutcome)
    (hsucc : ∃ i, i < MAX_RECONNECT_ATTEMPTS ∧ outcome i = AttemptOutcome.validated) :
    handleRequest false true ([] : List (PendingRequest α)) A
      = HandleRequestOutcome.queued [⟨A⟩]
    ∧ handleRequest false true [(⟨A⟩ : PendingRequest α)] B
      = HandleRequestOutcome.queued [⟨A⟩, ⟨B⟩]
    ∧ handleRequest false true [(⟨A⟩ : PendingRequest α), ⟨B⟩] C
      = HandleRequestOutcome.queued [⟨A⟩, ⟨B⟩, ⟨C⟩]
    ∧ (attemptReconnect false outcome [(⟨A⟩ : PendingRequest α), ⟨B⟩, ⟨C⟩]).settlements
      = [settle ⟨A⟩, settle ⟨B⟩, settle ⟨C⟩]
    ∧ (attemptReconnect false outcome [(⟨A⟩ : PendingRequest α), ⟨B⟩, ⟨C⟩]).pendingAfter = []
    ∧ (attemptReconnect false outcome [(⟨A⟩ : PendingRequest α), ⟨B⟩, ⟨C⟩]).threw = false
    ∧ (attemptReconnect false outcome
        [(⟨A⟩ : PendingRequest α), ⟨B⟩, ⟨C⟩]).isReconnectingAfter = false := by
  obtain ⟨i, hi, hv⟩ := hsucc
  have hloop := reconnectLoop_validated outcome [(⟨A⟩ : PendingRequest α), ⟨B⟩, ⟨C⟩]
    MAX_RECONNECT_ATTEMPTS 0 ⟨i, by omega, by omega, hv⟩
  refine ⟨rfl, rfl, rfl, ?_, ?_, ?_, ?_⟩ <;> simp [attemptReconnect, hloop]

/-- C5 witness: the FIFO drain theorem at three concrete operations, with
the first attempt validating. -/
theorem pending_queue_fifo_drain_witness :
    handleRequest false true ([] : List (PendingRequest Nat)) (Except.ok 1)
      = HandleRequestOutcome.queued [⟨Except.ok 1⟩]
    ∧ handleRequest false true [(⟨Except.ok 1⟩ : PendingRequest Nat)] (Except.error "boom")
      = HandleRequestOutcome.queued [⟨Except.ok 1⟩, ⟨Except.error "boom"⟩]
    ∧ handleRequest false true [(⟨Except.ok 1⟩ : PendingRequest Nat), ⟨Except.error "boom"⟩]
        (Except.ok 3)
      = HandleRequestOutcome.queued [⟨Except.ok 1⟩, ⟨Except.error "boom"⟩, ⟨Except.ok 3⟩]
    ∧ (attemptReconnect false (fun _ => AttemptOutcome.validated)
        [(⟨Except.ok 1⟩ : PendingRequest Nat), ⟨Except.error "boom"⟩, ⟨Except.ok 3⟩]).settlements
      = [settle ⟨Except.ok 1⟩, settle ⟨Except.error "boom"⟩, settle ⟨Except.ok 3⟩]
    ∧ (attemptReconnect false (fun _ => AttemptOutcome.validated)
        [(⟨Except.ok 1⟩ : PendingRequest Nat), ⟨Except.error "boom"⟩,
          ⟨Except.ok 3⟩]).pendingAfter = []
    ∧ (attemptReconnect false (fun _ => AttemptOutcome.validated)
        [(⟨Except.ok 1⟩ : PendingRequest Nat), ⟨Except.error "boom"⟩, ⟨Except.ok 3⟩]).threw
      = false
    ∧ (attemptReconnect false (fun _ => AttemptOutcome.validated)
        [(⟨Except.ok 1⟩ : PendingRequest Nat), ⟨Except.error "boom"⟩,
          ⟨Except.ok 3⟩]).isReconnectingAfter = false :=
  pending_queue_fifo_drain (Except.ok 1) (Except.error "boom") (Except.ok 3)
    (fun _ => AttemptOutcome.validated) ⟨0, by decide, rfl⟩

/-- C6: for attempts 1 to MAX_RECONNECT_ATTEMPTS the reconnection delay is
min(RECONNECT_BASE_DELAY * 2^(attempt-1), RECONNECT_MAX_DELAY) plus the
jitter in [0, RECONNECT_JITTER); the pre-jitter base is non-decreasing in
the attempt number, attempt 1 totals in [5000, 6000) and attempt 4 totals in
[30000, 31000). -/
theorem reconnect_backoff_delay (a b : Nat) (jitter : ℚ)
    (ha1 : 1 ≤ a) (ha5 : a ≤ MAX_RECONNECT_ATTEMPTS) (hab : a ≤ b)
    (hj0 : 0 ≤ jitter) (hj1 : jitter < (RECONNECT_JITTER : ℚ)) :
    reconnectDelay a jitter = min ((5000 : ℚ) * 2 ^ (a - 1)) 30000 + jitter
    ∧ reconnectBaseBackoff a ≤ reconnectBaseBackoff b
    ∧ (a = 1 → 5000 ≤ reconnectDelay a jitter ∧ reconnectDelay a jitter < 6000)
    ∧ (a = 4 → 30000 ≤ reconnectDelay a jitter ∧ reconnectDelay a jitter < 31000) := by
  have hjit : jitter < 1000 := by
    simpa [RECONNECT_JITTER] using hj1
  refine ⟨by norm_num [reconnectDelay, reconnectBaseBackoff, RECONNECT_BASE_DELAY,
      RECONNECT_MAX_DELAY], ?_, ?_, ?_⟩
  · unfold reconnectBaseBackoff
    have hpow : (2 : ℚ) ^ (a - 1) ≤ 2 ^ (b - 1) :=
      pow_le_pow_right₀ (by norm_num) (by omega)
    exact min_le_min
      (mul_le_mul_of_nonneg_left hpow (by norm_num [RECONNECT_BASE_DELAY])) le_rfl
  · intro h
    subst h
    have hbase : reconnectBaseBackoff 1 = 5000 := by
      norm_num [reconnectBaseBackoff, RECONNECT_BASE_DELAY, RECONNECT_MAX_DELAY]
    unfold reconnectDelay
    rw [hbase]
    constructor <;> linarith
  · intro h
    subst h
    have hbase : reconnectBaseBackoff 4 = 30000 := by
      norm_num [reconnectBaseBackoff, RECONNECT_BASE_DELAY, RECONNECT_MAX_DELAY]
    unfold reconnectDelay
    rw [hbase]
    constructor <;> linarith

/-- C6 witness: the backoff theorem at attempt 1 against attempt 4 with a
fractional jitter of one half. -/
theorem reconnect_backoff_delay_witness :
    reconnectDelay 1 (1/2) = min ((5000 : ℚ) * 2 ^ (1 - 1)) 30000 + 1/2
    ∧ reconnectBaseBackoff 1 ≤ reconnectBaseBackoff 4
    ∧ (1 = 1 → 5000 ≤ reconnectDelay 1 (1/2) ∧ reconnectDelay 1 (1/2) < 6000)
    ∧ (1 = 4 → 30000 ≤ reconnectDelay 1 (1/2) ∧ reconnectDelay 1 (1/2) < 31000) :=
  reconnect_backoff_delay 1 4 (1/2) (by norm_num) (by norm_num [MAX_RECONNECT_ATTEMPTS])
    (by norm_num) (by norm_num) (by norm_num [RECONNECT_JITTER])

/-- C7 counterexample: normalizeIndianNumber checks lengths, not digit
content. The 10-character input abcdefghij is not 10 digits, so it does not
match the claimed pattern, yet normalization returns a non-null result —
contrary to the claim that non-null results arise exactly on the claimed
digit pattern. -/
theorem normalizeIndianNumber_not_digit_checked :
    specPhonePattern "abcdefghij" = false
    ∧ normalizeIndianNumber "abcdefghij" = some "91abcdefghij" :=
  ⟨by decide, by decide⟩

/-- C7 (amended): normalization returns a non-null result exactly for
trimmed inputs of length 10, or length 12 starting with 91, or length 13
starting with +91 — digit content is never checked — and the four example
mappings hold as stated. -/
theorem normalizeIndianNumber_length_rules (input : String) :
    ((normalizeIndianNumber input).isSome = true ↔
      ((jsTrim input).length = 10
       ∨ ((jsTrim input).length = 12 ∧ jsStartsWith (jsTrim input) "91" = true)
       ∨ ((jsTrim input).length = 13 ∧ jsStartsWith (jsTrim input) "+91" = true)))
    ∧ normalizeIndianNumber "9876543210" = some "919876543210"
    ∧ normalizeIndianNumber "919876543210" = some "919876543210"
    ∧ normalizeIndianNumber "+919876543210" = some "919876543210"
    ∧ normalizeIndianNumber "123" = none := by
  refine ⟨?_, by decide, by decide, by decide, by decide⟩
  unfold normalizeIndianNumber
  split_ifs with h1 h2 h3 <;> simp_all

/-- C8 counterexample: processing the ready event resets the
reconnect-attempt counter but leaves a populated contact cache in place —
contrary to the claim that entering Ready clears the contact cache. -/
theorem onReadyEvent_keeps_cache_counterexample :
    (onReadyEvent 99 ⟨false, 3, none, some ⟨[("alice", "911111111111")], 7⟩, none⟩).reconnectAttempts
      = 0
    ∧ (onReadyEvent 99 ⟨false, 3, none, some ⟨[("alice", "911111111111")], 7⟩, none⟩).contactCache
      = some ⟨[("alice", "911111111111")], 7⟩
    ∧ (onReadyEvent 99 ⟨false, 3, none, some ⟨[("alice", "911111111111")], 7⟩, none⟩).contactCache
      ≠ none :=
  ⟨rfl, rfl, by decide⟩

/-- C8 (amended): the ready handler resets the reconnect-attempt counter,
marks the client ready and drops the stored QR data URL, but leaves the
contact cache unchanged; the cache is cleared instead by the session,
authenticated, auth_failure and disconnected handlers. -/
theorem onReadyEvent_effects (now : Nat) (s : ServiceState) (reason msg : String) :
    (onReadyEvent now s).reconnectAttempts = 0
    ∧ (onReadyEvent now s).isClientReady = true
    ∧ (onReadyEvent now s).lastQrDataUrl = none
    ∧ (onReadyEvent now s).contactCache = s.contactCache
    ∧ (onSessionEvent now s).contactCache = none
    ∧ (onAuthenticatedEvent now s).contactCache = none
    ∧ (onAuthFailureEvent msg s).contactCache = none
    ∧ (onDisconnectedEvent reason s).contactCache = none := by
  refine ⟨rfl, rfl, rfl, rfl, rfl, rfl, ?_, ?_⟩
  · by_cases h : msg = "LOGOUT" <;> simp [onAuthFailureEvent, clearContactCache, h]
  · by_cases h : reason = "LOGOUT" <;> simp [onDisconnectedEvent, clearContactCache, h]

/-- C9: restoreLatestBackup considers only backups whose name starts with
session- and ends with .json. A backup written by invalidateSession never
matches that filter, so it is never selected; and when no matching backup
exists, restoreLatestBackup returns false and leaves the store — in
particular the live session file — unchanged. -/
theorem restoreLatestBackup_ignores_invalidated (fs : SessionFS) (ts : Nat) (c : String)
    (h : fs.backups.filter (fun p => fileMatches p.1) = []) :
    fileMatches (invalidatedBackupName ts) = false
    ∧ restoreLatestBackup fs = (false, fs)
    ∧ invalidateSession ts ⟨some c, fs.backups⟩
        = ⟨none, fs.backups ++ [(invalidatedBackupName ts, c)]⟩
    ∧ restoreLatestBackup (invalidateSession ts ⟨some c, fs.backups⟩)
        = (false, invalidateSession ts ⟨some c, fs.backups⟩) := by
  have hf : fileMatches (invalidatedBackupName ts) = false := rfl
  refine ⟨hf, ?_, rfl, ?_⟩
  · simp [restoreLatestBackup, h, sortByNameDesc]
  · simp [restoreLatestBackup, invalidateSession, List.filter_append, h, hf, sortByNameDesc]

/-- C9 witness: a store with a live file and no backups; after invalidation
only the invalidated- backup exists and restoration reports false. -/
theorem restoreLatestBackup_ignores_invalidated_witness :
    fileMatches (invalidatedBackupName 99) = false
    ∧ restoreLatestBackup ⟨some "live", []⟩ = (false, (⟨some "live", []⟩ : SessionFS))
    ∧ invalidateSession 99 ⟨some "blob", ([] : List (FileName × String))⟩
        = ⟨none, [] ++ [(invalidatedBackupName 99, "blob")]⟩
    ∧ restoreLatestBackup (invalidateSession 99 ⟨some "blob", ([] : List (FileName × String))⟩)
        = (false, invalidateSession 99 ⟨some "blob", ([] : List (FileName × String))⟩) :=
  restoreLatestBackup_ignores_invalidated ⟨some "live", []⟩ 99 "blob" rfl

/-- C10: saveScheduledMessages swallows file-write failures, so
schedulePersistentMessage behaves identically whether the durable write
succeeded or failed, and with valid inputs and a future instant it returns
success true with the generated id even when the write failed — a
successful return does not guarantee the entry was durably persisted. -/
theorem schedulePersistentMessage_ok_despite_write_failure
    (now scheduled : Nat) (store : List ScheduledMessage) («to» message rand e : String)
    (h1 : ¬ (jsTrim «to» = "")) (h2 : ¬ (jsTrim message = "")) (h3 : now < scheduled) :
    saveScheduledMessages (Except.error e) = Except.ok ()
    ∧ schedulePersistentMessage now (Except.error e) store «to» message scheduled rand
        = schedulePersistentMessage now (Except.ok ()) store «to» message scheduled rand
    ∧ schedulePersistentMessage now (Except.error e) store «to» message scheduled rand
        = Except.ok (⟨true, «to» ++ "_" ++ toString scheduled ++ "_" ++ rand⟩,
            store ++ [⟨«to», message, scheduled, «to» ++ "_" ++ toString scheduled ++ "_" ++ rand⟩],
            scheduleSendJob now
              ⟨«to», message, scheduled, «to» ++ "_" ++ toString scheduled ++ "_" ++ rand⟩) := by
  have h3' : ¬ (scheduled ≤ now) := by omega
  refine ⟨rfl, ?_, ?_⟩ <;>
    simp [schedulePersistentMessage, saveScheduledMessages, h1, h2, h3']

/-- C10 witness: a concrete schedule call whose durable write fails with
ENOSPC still returns success true with the generated id. -/
theorem schedulePersistentMessage_ok_despite_write_failure_witness :
    saveScheduledMessages (Except.error "ENOSPC") = Except.ok ()
    ∧ schedulePersistentMessage 0 (Except.error "ENOSPC") [] "alice" "hi" 10 "r8"
        = schedulePersistentMessage 0 (Except.ok ()) [] "alice" "hi" 10 "r8"
    ∧ schedulePersistentMessage 0 (Except.error "ENOSPC") [] "alice" "hi" 10 "r8"
        = Except.ok (⟨true, "alice" ++ "_" ++ toString 10 ++ "_" ++ "r8"⟩,
            [] ++ [⟨"alice", "hi", 10, "alice" ++ "_" ++ toString 10 ++ "_" ++ "r8"⟩],
            scheduleSendJob 0 ⟨"alice", "hi", 10, "alice" ++ "_" ++ toString 10 ++ "_" ++ "r8"⟩) :=
  schedulePersistentMessage_ok_despite_write_failure 0 10 [] "alice" "hi" "r8" "ENOSPC"
    (by decide) (by decide) (by decide)
